import Mathlib

/-!
Verification of the payment-intent lifecycle implemented in
`src/controllers/paymentController.js` (creation, lazy expiry on status
reads, verification, and order reconciliation).

Statuses are modelled as strings because the implementation stores them as
strings and `verifyPayment` writes the caller-reported status verbatim.
The durable store is modelled as a key-value map (`String → Option _`),
matching the spec's abstraction of persistence; a `save` writes back to
the slot the document was loaded from, matching document-identity
persistence semantics.  The HMAC-SHA256 signature primitive from the
`crypto` library (`createSignature` in the controller) is modelled as an
arbitrary deterministic function `mac : String → String` (a pure function of the payload for a fixed
secret); the theorems are universally quantified over it.
-/

/-- A payment intent as persisted by `createPayment`
(`src/controllers/paymentController.js`, lines 143-156).  Time values
(`expires`, `createdAt`, `completedAt`) are epoch milliseconds. -/
structure Transaction where
  tid : String
  userId : Option String
  orderId : Option String
  amount : ℚ
  payType : String
  upi : String
  status : String
  payload : String
  signature : String
  redirectUrl : String
  note : String
  expires : ℤ
  createdAt : ℤ
  completedAt : Option ℤ
deriving Repr, DecidableEq

/-- The slice of an Order document touched by payment reconciliation
(`verifyPayment`, lines 267-279).  `orderNumber` and `totalAmount` stand
for the other persisted order fields, which reconciliation never touches. -/
structure Order where
  orderNumber : String
  totalAmount : ℚ
  paymentStatus : String
  status : String
deriving Repr, DecidableEq

/-- The durable store: transactions keyed by `tid`, orders keyed by their
document id. -/
structure DB where
  txns : String → Option Transaction
  orders : String → Option Order

/-- Models `Transaction.findOne({ tid })`. -/
def findTxn (db : DB) (tid : String) : Option Transaction :=
  db.txns tid

/-- Models `Order.findById(orderId)`. -/
def findOrder (db : DB) (oid : String) : Option Order :=
  db.orders oid

/-- Models `transaction.save()`: writes the document back to the slot it
was loaded from (key `k`). -/
def saveTxnAt (db : DB) (k : String) (t : Transaction) : DB :=
  { db with txns := fun k2 => if k2 = k then some t else db.txns k2 }

/-- Models `order.save()`: writes the order back to the slot it was loaded
from. -/
def saveOrderAt (db : DB) (k : String) (o : Order) : DB :=
  { db with orders := fun k2 => if k2 = k then some o else db.orders k2 }

/-- JavaScript truthiness of an optional string field (`undefined` and the
empty string are falsy). -/
def strTruthy : Option String → Bool
  | none => false
  | some s => s ≠ ""

/-- The signature guard of `verifyPayment` (lines 245-252): the check runs
only when a truthy `signature` was supplied, and fails when it differs
from the recomputed MAC of the stored payload. -/
def sigRejects (mac : String → String) (payload : String)
    (signature : Option String) : Bool :=
  match signature with
  | none => false
  | some s => s ≠ "" && s ≠ mac payload

/-- Outcome of `POST /api/payment/verify`. -/
inductive VerifyResult where
  /-- HTTP 400 `Transaction ID and status are required`. -/
  | missingFields
  /-- HTTP 404 `Transaction not found`. -/
  | notFound
  /-- HTTP 400 `Invalid signature`. -/
  | sigMismatch
  /-- HTTP 400 `Transaction already <existing status>`. -/
  | alreadyProcessed (existing : String)
  /-- HTTP 200 `{success:true, message, tid, status, amount}`. -/
  | ok (tid : String) (status : String) (amount : ℚ)
deriving Repr, DecidableEq

/-- Whether a verify call succeeded (HTTP 200). -/
def VerifyResult.isOk : VerifyResult → Bool
  | .ok _ _ _ => true
  | _ => false

/-- Models `verifyPayment` (`src/controllers/paymentController.js`, lines
226-296): field-presence check, lookup, optional signature check,
already-processed check, then the status update, `completedAt := now`,
persistence, and the order-reconciliation side effect. -/
def verifyPayment (mac : String → String) (now : ℤ) (db : DB)
    (tid status : String) (signature : Option String) :
    VerifyResult × DB :=
  if tid = "" ∨ status = "" then (.missingFields, db)
  else
    match findTxn db tid with
    | none => (.notFound, db)
    | some t =>
      if sigRejects mac t.payload signature then (.sigMismatch, db)
      else if t.status ≠ "pending" then (.alreadyProcessed t.status, db)
      else
        let t2 : Transaction := { t with status := status, completedAt := some now }
        let db2 := saveTxnAt db tid t2
        let db3 :=
          match t2.orderId with
          | none => db2
          | some oid =>
            match findOrder db2 oid with
            | none => db2
            | some o =>
              let o2 : Order :=
                if status = "success" then
                  { o with paymentStatus := "paid", status := "confirmed" }
                else if status = "failed" then
                  { o with paymentStatus := "failed", status := "cancelled" }
                else o
              saveOrderAt db2 oid o2
        (.ok t2.tid t2.status t2.amount, db3)

/-- The view returned by `GET /api/payment/status/:tid` (lines 202-210). -/
structure StatusView where
  tid : String
  status : String
  amount : ℚ
  payType : String
  upi : String
  createdAt : ℤ
  completedAt : Option ℤ
deriving Repr, DecidableEq

/-- Outcome of `GET /api/payment/status/:tid`. -/
inductive StatusResult where
  /-- HTTP 400 `Transaction ID is required`. -/
  | missingTid
  /-- HTTP 404 `Transaction not found`. -/
  | notFound
  /-- HTTP 200 with the status view. -/
  | ok (view : StatusView)
deriving Repr, DecidableEq

/-- The response body built from a transaction (lines 202-210). -/
def mkView (t : Transaction) : StatusView :=
  { tid := t.tid, status := t.status, amount := t.amount,
    payType := t.payType, upi := t.upi,
    createdAt := t.createdAt, completedAt := t.completedAt }

/-- Models `checkPaymentStatus` (`src/controllers/paymentController.js`,
lines 178-219): lookup, lazy expiry transition (`pending` and `now` strictly
past `expires` mutates the status to `expired` and persists), then the
view of the (possibly updated) document. -/
def checkPaymentStatus (now : ℤ) (db : DB) (tid : String) :
    StatusResult × DB :=
  if tid = "" then (.missingTid, db)
  else
    match findTxn db tid with
    | none => (.notFound, db)
    | some t =>
      if t.status = "pending" ∧ now > t.expires then
        let t2 : Transaction := { t with status := "expired" }
        (.ok (mkView t2), saveTxnAt db tid t2)
      else (.ok (mkView t), db)

/-- A JSON scalar as it can arrive in the `amount` field of the request
body for `POST /api/payment/create`. -/
inductive JsVal where
  | num (q : ℚ)
  | str (s : String)
  | jnull
deriving Repr, DecidableEq

/-- JavaScript truthiness of the optional `amount` field: `undefined`,
`null`, the number `0` and the empty string are falsy. -/
def jsTruthy : Option JsVal → Bool
  | none => false
  | some .jnull => false
  | some (.num q) => q ≠ 0
  | some (.str s) => s ≠ ""

/-- The two 400 errors of `createPayment`. -/
inductive CreateErr where
  /-- HTTP 400 `Invalid payload`. -/
  | invalidPayload
  /-- HTTP 400 `Unsupported payment type`. -/
  | unsupportedType
deriving Repr, DecidableEq

/-- Models `String.prototype.toLowerCase` on one character (ASCII case fold;
the strings this controller compares are ASCII). -/
def jsToLowerChar (c : Char) : Char :=
  if 'A' ≤ c ∧ c ≤ 'Z' then Char.ofNat (c.toNat + 32) else c

/-- Models `payType.toLowerCase()` over a whole string. -/
def jsToLower (s : String) : String :=
  String.mk (s.data.map jsToLowerChar)

/-- Models `String.prototype.trim`: strip leading and trailing whitespace. -/
def jsTrim (s : String) : String :=
  String.mk
    (((s.data.dropWhile Char.isWhitespace).reverse.dropWhile
        Char.isWhitespace).reverse)

/-- The validation prefix of `createPayment` (lines 39-54): the JS guard
`if (!amount || !payType)` rejects falsy fields, then the payment type is
lower-cased, trimmed and checked against `['phonepe', 'paytm']`.  Returns
the normalised payment type on success. -/
def validateCreate (amount : Option JsVal) (payType : Option String) :
    Except CreateErr String :=
  if ¬ jsTruthy amount ∨ ¬ strTruthy payType then .error .invalidPayload
  else
    let paymentType := jsTrim (jsToLower (payType.getD ""))
    if paymentType = "phonepe" ∨ paymentType = "paytm" then .ok paymentType
    else .error .unsupportedType

/-- The UTF-8 byte sequence of a character (as `Nat`s below 256). -/
def utf8Bytes (c : Char) : List ℕ :=
  let n := c.toNat
  if n < 0x80 then [n]
  else if n < 0x800 then
    [0xC0 + n / 0x40, 0x80 + n % 0x40]
  else if n < 0x10000 then
    [0xE0 + n / 0x1000, 0x80 + n / 0x40 % 0x40, 0x80 + n % 0x40]
  else
    [0xF0 + n / 0x40000, 0x80 + n / 0x1000 % 0x40,
     0x80 + n / 0x40 % 0x40, 0x80 + n % 0x40]

/-- Upper-case hexadecimal digit. -/
def hexDigit (n : ℕ) : Char :=
  if n < 10 then Char.ofNat (n + 48)
  else Char.ofNat (n - 10 + 65)

/-- Percent-escape of one byte, e.g. `%40`. -/
def percentByte (n : ℕ) : String :=
  String.mk ['%', hexDigit (n / 16 % 16), hexDigit (n % 16)]

/-- Characters the `application/x-www-form-urlencoded` serializer (used
by `URLSearchParams.toString()`) leaves unescaped. -/
def formSafe (c : Char) : Bool :=
  c.isAlphanum || c = '*' || c = '-' || c = '.' || c = '_'

/-- One character under the `URLSearchParams` serializer: space becomes
`+`, safe characters stay, everything else is percent-escaped per UTF-8
byte. -/
def formEncodeChar (c : Char) : String :=
  if c = ' ' then "+"
  else if formSafe c then String.singleton c
  else String.join ((utf8Bytes c).map percentByte)

/-- Form-urlencoded serialization of one string (the encoding
`URLSearchParams` applies to each key and value). -/
def formEncode (s : String) : String :=
  String.join (s.data.map formEncodeChar)

/-- Models `URLSearchParams.toString()` over the entries in insertion order:
`key=value` pairs, both sides form-encoded, joined by `&`. -/
def serializeParams : List (String × String) → String
  | [] => ""
  | [p] => formEncode p.1 ++ "=" ++ formEncode p.2
  | p :: q :: rest =>
    formEncode p.1 ++ "=" ++ formEncode p.2 ++ "&" ++ serializeParams (q :: rest)

/-- Characters `encodeURIComponent` leaves unescaped
(alphanumerics and `- _ . ! ~ * ' ( )`). -/
def uriComponentSafe (c : Char) : Bool :=
  c.isAlphanum || c = '-' || c = '_' || c = '.' || c = '!' || c = '~' ||
  c = '*' || c.toNat = 39 || c = '(' || c = ')'

/-- Models `encodeURIComponent`: safe characters stay, everything else is
percent-escaped per UTF-8 byte. -/
def encodeURIComponent (s : String) : String :=
  String.join (s.data.map fun c =>
    if uriComponentSafe c then String.singleton c
    else String.join ((utf8Bytes c).map percentByte))

/-- The PhonePe deep link (line 91):
`phonepe://native?data=<encodeURIComponent of the base64 payload>&id=p2ppayment`. -/
def phonepeRedirect (payloadB64 : String) : String :=
  "phonepe://native?data=" ++ encodeURIComponent payloadB64 ++ "&id=p2ppayment"

/-- The Paytm deep link (lines 104-120): `paytmmp://cash_wallet?` followed
by the `URLSearchParams` serialization of the twelve query parameters in
insertion order.  `amountStr` is the decimal string the serializer
receives for the numeric `am` value. -/
def paytmRedirect (upi amountStr note : String) : String :=
  "paytmmp://cash_wallet?" ++ serializeParams
    [("pa", upi), ("am", amountStr), ("tn", note), ("pn", upi),
     ("mc", ""), ("cu", "INR"), ("url", ""), ("mode", ""),
     ("purpose", ""), ("orgid", ""), ("sign", ""),
     ("featuretype", "money_transfer")]

/-- The Paytm deep link as the spec's format string reads with the raw
handle, amount and note substituted for the placeholders (spec section 6:
`paytmmp://cash_wallet?pa=<handle>&am=<amount>&tn=<note>&pn=<handle>&mc=&cu=INR&url=&mode=&purpose=&orgid=&sign=&featuretype=money_transfer`).
Kept separate from `paytmRedirect` (the code's construction) so the two
can be compared. -/
def specPaytmLink (handle amountStr note : String) : String :=
  "paytmmp://cash_wallet?pa=" ++ handle ++ "&am=" ++ amountStr ++
  "&tn=" ++ note ++ "&pn=" ++ handle ++
  "&mc=&cu=INR&url=&mode=&purpose=&orgid=&sign=&featuretype=money_transfer"

/-- Models `orderId || null` / `userId || null` at persistence time (lines
145-146): an empty string is stored as `null`. -/
def jsOrNull : Option String → Option String
  | none => none
  | some s => if s = "" then none else some s

/-- The 200 response body of `createPayment` (lines 93-100 / 132-139). -/
structure CreateResponse where
  redirect_url : String
  payload : String
  sig : String
  expires : ℤ
  tid : String
  amountStr : String
deriving Repr, DecidableEq

/-- Models `createPayment` (`src/controllers/paymentController.js`, lines
35-170): validation, provider-specific deep-link construction, signing of
the encoded payload, persistence of a `pending` transaction, and the
response.  Abstracted inputs (values the controller derives from ambient
state or IEEE-754 float arithmetic, passed in explicitly): `tid` and
`note` (randomly generated), `now` (epoch seconds), `amountVal` (the
`parseFloat(amount)` result), `amountStr` (its JS string form, used for
the response `amount` and the Paytm `am` parameter), and `payloadB64`
(the base64 of the provider payload JSON, whose PhonePe variant embeds a
float-derived minor-unit amount; see the float caveat on C9).  The
signature stored and returned is `mac payloadB64`, exactly as lines 87
and 151-152 compute it. -/
def createPayment (mac : String → String) (upi : String)
    (amount : Option JsVal) (payType : Option String)
    (orderId userId : Option String)
    (tid note amountStr payloadB64 : String)
    (now createdAt : ℤ) (amountVal : ℚ) (db : DB) :
    Except CreateErr (CreateResponse × DB) :=
  match validateCreate amount payType with
  | .error e => .error e
  | .ok paymentType =>
    let expires : ℤ := now + 600
    let redirectUrl :=
      if paymentType = "phonepe" then phonepeRedirect payloadB64
      else paytmRedirect upi amountStr note
    let signature := mac payloadB64
    let txn : Transaction :=
      { tid := tid, userId := jsOrNull userId, orderId := jsOrNull orderId,
        amount := amountVal, payType := paymentType, upi := upi,
        status := "pending", payload := payloadB64, signature := signature,
        redirectUrl := redirectUrl, note := note,
        expires := expires * 1000, createdAt := createdAt,
        completedAt := none }
    .ok ({ redirect_url := redirectUrl, payload := payloadB64,
           sig := signature, expires := expires, tid := tid,
           amountStr := amountStr },
         saveTxnAt db tid txn)

/-- The reconciliation applied to an order when the intent is verified
with reported status `s` (lines 270-276). -/
def reconcileOrder (s : String) (o : Order) : Order :=
  if s = "success" then { o with paymentStatus := "paid", status := "confirmed" }
  else if s = "failed" then { o with paymentStatus := "failed", status := "cancelled" }
  else o

/-- Decidable equality of creation outcomes, so concrete runs can be
evaluated. -/
instance : DecidableEq (Except CreateErr String) := fun a b =>
  match a, b with
  | .error x, .error y =>
    if h : x = y then .isTrue (by simp [h]) else .isFalse (by simp [h])
  | .ok x, .ok y =>
    if h : x = y then .isTrue (by simp [h]) else .isFalse (by simp [h])
  | .error _, .ok _ => .isFalse (by simp)
  | .ok _, .error _ => .isFalse (by simp)

/-- An empty store. -/
def dbEmpty : DB := { txns := fun _ => none, orders := fun _ => none }

/-- A concrete deterministic MAC function used to instantiate the theorems
on concrete stores. -/
def mac0 : String → String := fun s => "sig-" ++ s

/-- A pending intent fixture linked to the order `o1`. -/
def tx1 : Transaction :=
  { tid := "t1", userId := none, orderId := some "o1", amount := 100,
    payType := "phonepe", upi := "m@sbi", status := "pending",
    payload := "PL", signature := "sig-PL", redirectUrl := "r",
    note := "s123", expires := 1000, createdAt := 0, completedAt := none }

/-- An order fixture. -/
def ord1 : Order :=
  { orderNumber := "ORD1", totalAmount := 100, paymentStatus := "unpaid",
    status := "pending" }

/-- A store holding the pending intent `tx1` and the order `ord1`. -/
def db1 : DB :=
  { txns := fun k => if k = "t1" then some tx1 else none,
    orders := fun k => if k = "o1" then some ord1 else none }

/-- The fixture `tx1` at terminal status `success`. -/
def tx2 : Transaction := { tx1 with status := "success" }

/-- A store holding the terminal intent `tx2` and the order `ord1`. -/
def db2 : DB :=
  { db1 with txns := fun k => if k = "t1" then some tx2 else none }

/-- The intent persisted by the concrete PhonePe creation run used to
instantiate C4. -/
def txn9 : Transaction :=
  { tid := "t9", userId := none, orderId := none, amount := 100,
    payType := "phonepe", upi := "m@sbi", status := "pending",
    payload := "PL", signature := mac0 "PL",
    redirectUrl := phonepeRedirect "PL", note := "s1",
    expires := 600000, createdAt := 0, completedAt := none }

/-- The response of the concrete PhonePe creation run used to instantiate
C4. -/
def resp9 : CreateResponse :=
  { redirect_url := phonepeRedirect "PL", payload := "PL", sig := mac0 "PL",
    expires := 600, tid := "t9", amountStr := "100" }

/-- The store after the concrete PhonePe creation run used to instantiate
C4. -/
def db9 : DB := saveTxnAt dbEmpty "t9" txn9

/-- The intent persisted by the concrete Paytm creation run used to
instantiate C8. -/
def txn8 : Transaction :=
  { tid := "t8", userId := none, orderId := none, amount := 50,
    payType := "paytm", upi := "m@sbi", status := "pending",
    payload := "PLB", signature := mac0 "PLB",
    redirectUrl := paytmRedirect "m@sbi" "50" "s2", note := "s2",
    expires := 600000, createdAt := 0, completedAt := none }

/-- The response of the concrete Paytm creation run used to instantiate C8. -/
def resp8 : CreateResponse :=
  { redirect_url := paytmRedirect "m@sbi" "50" "s2", payload := "PLB",
    sig := mac0 "PLB", expires := 600, tid := "t8", amountStr := "50" }

/-- The store after the concrete Paytm creation run used to instantiate C8. -/
def db8 : DB := saveTxnAt dbEmpty "t8" txn8

/-- Saving an order leaves the transaction table untouched. -/
theorem txns_saveOrderAt (db : DB) (k : String) (o : Order) :
    (saveOrderAt db k o).txns = db.txns := rfl

/-- Saving a transaction leaves the order table untouched. -/
theorem orders_saveTxnAt (db : DB) (k : String) (t : Transaction) :
    (saveTxnAt db k t).orders = db.orders := rfl

/-- A lookup at the slot just written returns the written document. -/
theorem findTxn_saveTxnAt_self (db : DB) (k : String) (t : Transaction) :
    findTxn (saveTxnAt db k t) k = some t := by
  simp [findTxn, saveTxnAt]

/-- A lookup at any other slot is unaffected by a write. -/
theorem findTxn_saveTxnAt_ne (db : DB) (k k2 : String) (t : Transaction)
    (h : k2 ≠ k) : findTxn (saveTxnAt db k t) k2 = findTxn db k2 := by
  simp [findTxn, saveTxnAt, h]

/-- Every verify call either returns the store unchanged or succeeds. -/
theorem verify_frame_or_ok (mac : String → String) (now : ℤ) (db : DB)
    (tid s : String) (sig : Option String) :
    (verifyPayment mac now db tid s sig).2 = db ∨
      (verifyPayment mac now db tid s sig).1.isOk = true := by
  unfold verifyPayment
  split
  · exact Or.inl rfl
  · split
    · exact Or.inl rfl
    · split
      · exact Or.inl rfl
      · split
        · exact Or.inl rfl
        · exact Or.inr rfl

/-- A verify call that does not succeed returns the store unchanged. -/
theorem verify_fail_frame (mac : String → String) (now : ℤ) (db : DB)
    (tid s : String) (sig : Option String)
    (h : (verifyPayment mac now db tid s sig).1.isOk = false) :
    (verifyPayment mac now db tid s sig).2 = db := by
  rcases verify_frame_or_ok mac now db tid s sig with h2 | h2
  · exact h2
  · rw [h2] at h; cases h

/-- A successful verify call implies: both fields were present, the intent
exists, its status was `pending`, and the signature guard passed. -/
theorem verify_ok_inversion (mac : String → String) (now : ℤ) (db : DB)
    (tid s : String) (sig : Option String) :
    (verifyPayment mac now db tid s sig).1.isOk = true →
    tid ≠ "" ∧ s ≠ "" ∧ ∃ t, findTxn db tid = some t ∧
      t.status = "pending" ∧ sigRejects mac t.payload sig = false := by
  unfold verifyPayment
  split
  · intro h; cases h
  · rename_i hne
    push_neg at hne
    split
    · intro h; cases h
    · rename_i t hf
      split
      · intro h; cases h
      · rename_i hsig
        split
        · intro h; cases h
        · rename_i hp
          intro _
          refine ⟨hne.1, hne.2, t, hf, ?_, ?_⟩
          · simpa using hp
          · simpa using hsig

/-- Behaviour of a verify call on an intent whose status is not `pending`:
the store is unchanged and the result is the field-presence error, the
signature error, or `AlreadyProcessed`, in the code's checking order. -/
theorem verify_terminal (mac : String → String) (now : ℤ) (db : DB)
    (tid s : String) (sig : Option String) (t : Transaction)
    (hf : findTxn db tid = some t) (ht : t.status ≠ "pending") :
    verifyPayment mac now db tid s sig =
      ((if tid = "" ∨ s = "" then .missingFields
        else if sigRejects mac t.payload sig then .sigMismatch
        else .alreadyProcessed t.status), db) := by
  unfold verifyPayment
  rw [hf]
  by_cases h1 : tid = "" ∨ s = ""
  · simp [h1]
  · simp only [h1, if_false]
    by_cases h2 : sigRejects mac t.payload sig
    · simp [h2]
    · simp [h2, ht]

/-- Behaviour of a verify call that reaches the update: the result is a
success, the intent is rewritten with the reported status and a completion
time, and the linked order (when present) is reconciled. -/
theorem verify_pending (mac : String → String) (now : ℤ) (db : DB)
    (tid s : String) (sig : Option String) (t : Transaction)
    (hf : findTxn db tid = some t) (htid : tid ≠ "") (hs : s ≠ "")
    (hp : t.status = "pending") (hsig : sigRejects mac t.payload sig = false) :
    (verifyPayment mac now db tid s sig).1 = .ok t.tid s t.amount ∧
    (verifyPayment mac now db tid s sig).2.txns =
      (saveTxnAt db tid { t with status := s, completedAt := some now }).txns ∧
    (verifyPayment mac now db tid s sig).2.orders =
      (match t.orderId with
       | none => db.orders
       | some oid =>
         match db.orders oid with
         | none => db.orders
         | some o => (saveOrderAt db oid (reconcileOrder s o)).orders) := by
  unfold verifyPayment
  rw [hf]
  simp only [htid, hs, or_self, if_false, hsig, Bool.false_eq_true, hp, ne_eq,
    not_true_eq_false]
  constructor
  · simp [htid, hs]
  constructor
  · cases ho : t.orderId with
    | none => simp [htid, hs, ho]
    | some oid =>
      cases ho2 : db.orders oid with
      | none => simp [htid, hs, ho, findOrder, orders_saveTxnAt, ho2]
      | some o =>
        simp [htid, hs, ho, findOrder, orders_saveTxnAt, ho2, txns_saveOrderAt]
  · cases ho : t.orderId with
    | none => simp [htid, hs, ho, orders_saveTxnAt]
    | some oid =>
      cases ho2 : db.orders oid with
      | none => simp [htid, hs, ho, findOrder, orders_saveTxnAt, ho2]
      | some o =>
        simp [htid, hs, ho, findOrder, orders_saveTxnAt, ho2, saveOrderAt,
          reconcileOrder]

/-- A status read that does not trigger the expiry transition returns the
store unchanged. -/
theorem check_no_expiry (now : ℤ) (db : DB) (tid : String) (t : Transaction)
    (hf : findTxn db tid = some t)
    (h : ¬ (t.status = "pending" ∧ now > t.expires)) :
    checkPaymentStatus now db tid =
      ((if tid = "" then .missingTid else .ok (mkView t)), db) := by
  unfold checkPaymentStatus
  rw [hf]
  by_cases h1 : tid = ""
  · simp [h1]
  · simp [h1, h]

/-- A status read that triggers the lazy expiry transition persists the
intent with status `expired` and returns its view. -/
theorem check_expiry (now : ℤ) (db : DB) (tid : String) (t : Transaction)
    (hf : findTxn db tid = some t) (htid : tid ≠ "")
    (hp : t.status = "pending") (hexp : now > t.expires) :
    checkPaymentStatus now db tid =
      (.ok (mkView { t with status := "expired" }),
       saveTxnAt db tid { t with status := "expired" }) := by
  unfold checkPaymentStatus
  rw [hf]
  simp [htid, hp, hexp]

/-- A status read with an empty transaction id fails before touching the
store. -/
theorem check_empty_tid (now : ℤ) (db : DB) :
    checkPaymentStatus now db "" = (.missingTid, db) := by
  unfold checkPaymentStatus
  simp

/-- A verify call on an intent whose signature guard passes never fails with
the signature error. -/
theorem verify_not_sigMismatch (mac : String → String) (now : ℤ) (db : DB)
    (tid s : String) (sig : Option String) (t : Transaction)
    (hf : findTxn db tid = some t)
    (hsig : sigRejects mac t.payload sig = false) :
    (verifyPayment mac now db tid s sig).1 ≠ .sigMismatch := by
  unfold verifyPayment
  rw [hf]
  by_cases h1 : tid = "" ∨ s = ""
  · simp [h1]
  · simp only [h1, if_false]
    rw [hsig]
    simp only [Bool.false_eq_true, if_false]
    by_cases h2 : t.status ≠ "pending"
    · simp [h2]
    · simp [h2]

/-- A successful creation implies: validation succeeded, and the response
and the stored intent carry the constructed deep link, payload and
signature. -/
theorem create_ok_inversion (mac : String → String) (upi : String)
    (amount : Option JsVal) (payType : Option String)
    (orderId userId : Option String) (tid note amountStr payloadB64 : String)
    (now createdAt : ℤ) (amountVal : ℚ) (db : DB)
    (resp : CreateResponse) (db1 : DB)
    (hc : createPayment mac upi amount payType orderId userId tid note amountStr
        payloadB64 now createdAt amountVal db = .ok (resp, db1)) :
    ∃ pt, validateCreate amount payType = .ok pt ∧
      resp.redirect_url =
        (if pt = "phonepe" then phonepeRedirect payloadB64
         else paytmRedirect upi amountStr note) ∧
      resp.payload = payloadB64 ∧ resp.sig = mac payloadB64 ∧
      db1 = saveTxnAt db tid
        { tid := tid, userId := jsOrNull userId, orderId := jsOrNull orderId,
          amount := amountVal, payType := pt, upi := upi,
          status := "pending", payload := payloadB64,
          signature := mac payloadB64,
          redirectUrl := (if pt = "phonepe" then phonepeRedirect payloadB64
                          else paytmRedirect upi amountStr note),
          note := note, expires := (now + 600) * 1000, createdAt := createdAt,
          completedAt := none } := by
  unfold createPayment at hc
  cases hv : validateCreate amount payType with
  | error e => rw [hv] at hc; cases hc
  | ok pt =>
    rw [hv] at hc
    simp only [Except.ok.injEq, Prod.mk.injEq] at hc
    exact ⟨pt, rfl, by rw [← hc.1], by rw [← hc.1], by rw [← hc.1], hc.2.symm⟩

/-- Reassociation of a string concatenation so adjacent literals merge. -/
theorem append_glue (x a b c : String) (h : a ++ b = c) :
    x ++ a ++ b = x ++ c := by
  rw [String.append_assoc, h]

/-- C1 (amended): every status transition starts from `pending`: a status
read changes a pending status only to `expired`, and verify changes a
pending status only to the caller-reported status (any string, not
limited to success/failed/expired); no transition is reachable from a
non-pending status: there a verify call leaves the store unchanged and
fails — with `SignatureMismatch` when it supplies a truthy mismatching
signature, otherwise with `AlreadyProcessed` — and a status read leaves
the store unchanged. -/
theorem payment_c1_thm
    (mac : String → String) (now now2 : ℤ) (db : DB) (tid s : String)
    (sig : Option String) (t : Transaction)
    (hf : findTxn db tid = some t) :
    (findTxn (checkPaymentStatus now db tid).2 tid = some t ∨
      (t.status = "pending" ∧
        findTxn (checkPaymentStatus now db tid).2 tid =
          some { t with status := "expired" })) ∧
    (findTxn (verifyPayment mac now2 db tid s sig).2 tid = some t ∨
      (t.status = "pending" ∧
        findTxn (verifyPayment mac now2 db tid s sig).2 tid =
          some { t with status := s, completedAt := some now2 })) ∧
    (t.status ≠ "pending" →
      (verifyPayment mac now2 db tid s sig).2 = db ∧
      (checkPaymentStatus now db tid).2 = db ∧
      (tid ≠ "" → s ≠ "" →
        (verifyPayment mac now2 db tid s sig).1 =
          if sigRejects mac t.payload sig then .sigMismatch
          else .alreadyProcessed t.status)) := by
  refine ⟨?_, ?_, ?_⟩
  · by_cases hcond : t.status = "pending" ∧ now > t.expires
    · by_cases htid : tid = ""
      · subst htid; rw [check_empty_tid now db]; exact Or.inl hf
      · rw [check_expiry now db tid t hf htid hcond.1 hcond.2]
        exact Or.inr ⟨hcond.1, findTxn_saveTxnAt_self db tid _⟩
    · rw [check_no_expiry now db tid t hf hcond]; exact Or.inl hf
  · rcases verify_frame_or_ok mac now2 db tid s sig with hfr | hok
    · rw [hfr]; exact Or.inl hf
    · obtain ⟨htid, hs, t', hf', hp', hsig'⟩ := verify_ok_inversion mac now2 db tid s sig hok
      rw [hf] at hf'
      injection hf' with hf'
      subst hf'
      obtain ⟨-, htx, -⟩ := verify_pending mac now2 db tid s sig t hf htid hs hp' hsig'
      refine Or.inr ⟨hp', ?_⟩
      show (verifyPayment mac now2 db tid s sig).2.txns tid = _
      rw [htx]
      exact findTxn_saveTxnAt_self db tid _
  · intro ht
    have hver := verify_terminal mac now2 db tid s sig t hf ht
    have hcond : ¬ (t.status = "pending" ∧ now > t.expires) := fun h => ht h.1
    refine ⟨by rw [hver], by rw [check_no_expiry now db tid t hf hcond], ?_⟩
    intro htid hs
    rw [hver]
    simp [htid, hs]

/-- Concrete instantiation of `payment_c1_thm`: a stored intent with
terminal status `success`, probed by a status read and by a verify call
supplying a wrong signature. -/
theorem payment_c1_wit :
    findTxn db2 "t1" = some tx2 ∧
    ((findTxn (checkPaymentStatus 5 db2 "t1").2 "t1" = some tx2 ∨
       (tx2.status = "pending" ∧
         findTxn (checkPaymentStatus 5 db2 "t1").2 "t1" =
           some { tx2 with status := "expired" })) ∧
     (findTxn (verifyPayment mac0 6 db2 "t1" "failed" (some "bogus")).2 "t1" = some tx2 ∨
       (tx2.status = "pending" ∧
         findTxn (verifyPayment mac0 6 db2 "t1" "failed" (some "bogus")).2 "t1" =
           some { tx2 with status := "failed", completedAt := some 6 })) ∧
     (tx2.status ≠ "pending" →
       (verifyPayment mac0 6 db2 "t1" "failed" (some "bogus")).2 = db2 ∧
       (checkPaymentStatus 5 db2 "t1").2 = db2 ∧
       ("t1" ≠ "" → "failed" ≠ "" →
         (verifyPayment mac0 6 db2 "t1" "failed" (some "bogus")).1 =
           if sigRejects mac0 tx2.payload (some "bogus") then .sigMismatch
           else .alreadyProcessed tx2.status))) :=
  ⟨by decide, payment_c1_thm mac0 5 6 db2 "t1" "failed" (some "bogus") tx2 (by decide)⟩

/-- C1, counterexample to the claim as stated: reported status `banana`
moves a pending intent to status `banana`, which is none of `success`,
`failed`, `expired`; and a verify call on an intent at terminal status
`success` that supplies a mismatching signature fails with
`SignatureMismatch`, not `AlreadyProcessed`. -/
theorem payment_c1_cex :
    findTxn (verifyPayment mac0 5 db1 "t1" "banana" none).2 "t1" =
      some { tx1 with status := "banana", completedAt := some 5 } ∧
    ("banana" ≠ "success" ∧ "banana" ≠ "failed" ∧ "banana" ≠ "expired" ∧
      "banana" ≠ "pending") ∧
    (verifyPayment mac0 5 db2 "t1" "failed" (some "bogus")).1 = .sigMismatch ∧
    (verifyPayment mac0 5 db2 "t1" "failed" (some "bogus")).1 ≠
      .alreadyProcessed "success" := by
  refine ⟨by decide, by decide, by decide, by decide⟩

/-- C2 (amended): two successive verify calls on the same transaction id
succeed at most once, provided the first call's reported status is not
`pending`; when the first succeeds, the second fails with
`AlreadyProcessed` carrying the first call's reported status — unless the
second supplies a truthy mismatching signature, in which case it fails
with `SignatureMismatch`. -/
theorem payment_c2_thm
    (mac : String → String) (now1 now2 : ℤ) (db : DB) (tid s1 s2 : String)
    (sig1 sig2 : Option String) (t : Transaction)
    (hf : findTxn db tid = some t) (hs1 : s1 ≠ "pending") :
    ¬ ((verifyPayment mac now1 db tid s1 sig1).1.isOk = true ∧
       (verifyPayment mac now2 (verifyPayment mac now1 db tid s1 sig1).2
          tid s2 sig2).1.isOk = true) ∧
    ((verifyPayment mac now1 db tid s1 sig1).1.isOk = true → s2 ≠ "" →
      (verifyPayment mac now2 (verifyPayment mac now1 db tid s1 sig1).2
          tid s2 sig2).1 =
        if sigRejects mac t.payload sig2 then .sigMismatch
        else .alreadyProcessed s1) := by
  have key : (verifyPayment mac now1 db tid s1 sig1).1.isOk = true → s2 ≠ "" →
      (verifyPayment mac now2 (verifyPayment mac now1 db tid s1 sig1).2
          tid s2 sig2).1 =
        if sigRejects mac t.payload sig2 then .sigMismatch
        else .alreadyProcessed s1 := by
    intro hok hs2
    obtain ⟨htid, hs, t', hf', hp', hsig'⟩ :=
      verify_ok_inversion mac now1 db tid s1 sig1 hok
    rw [hf] at hf'
    injection hf' with hf'
    subst hf'
    obtain ⟨-, htx, -⟩ := verify_pending mac now1 db tid s1 sig1 t hf htid hs hp' hsig'
    have hf2 : findTxn (verifyPayment mac now1 db tid s1 sig1).2 tid =
        some { t with status := s1, completedAt := some now1 } := by
      show (verifyPayment mac now1 db tid s1 sig1).2.txns tid = _
      rw [htx]
      exact findTxn_saveTxnAt_self db tid _
    have hterm := verify_terminal mac now2 (verifyPayment mac now1 db tid s1 sig1).2
      tid s2 sig2 _ hf2 (by simpa using hs1)
    rw [hterm]
    simp [htid, hs2]
  refine ⟨?_, key⟩
  rintro ⟨h1, h2⟩
  obtain ⟨-, hs2, -⟩ := verify_ok_inversion mac now2 _ tid s2 sig2 h2
  rw [key h1 hs2] at h2
  by_cases hrej : sigRejects mac t.payload sig2 = true
  · simp [hrej, VerifyResult.isOk] at h2
  · simp [hrej, VerifyResult.isOk] at h2

/-- Concrete instantiation of `payment_c2_thm`: verify reporting `success`
followed by verify reporting `failed` on the same pending intent. -/
theorem payment_c2_wit :
    findTxn db1 "t1" = some tx1 ∧ "success" ≠ "pending" ∧
    (¬ ((verifyPayment mac0 5 db1 "t1" "success" none).1.isOk = true ∧
        (verifyPayment mac0 6 (verifyPayment mac0 5 db1 "t1" "success" none).2
           "t1" "failed" none).1.isOk = true) ∧
     ((verifyPayment mac0 5 db1 "t1" "success" none).1.isOk = true → "failed" ≠ "" →
       (verifyPayment mac0 6 (verifyPayment mac0 5 db1 "t1" "success" none).2
           "t1" "failed" none).1 =
         if sigRejects mac0 tx1.payload none then .sigMismatch
         else .alreadyProcessed "success")) :=
  ⟨by decide, by decide,
   payment_c2_thm mac0 5 6 db1 "t1" "success" "failed" none none tx1 (by decide) (by decide)⟩

/-- C2, counterexample to the claim as stated: reporting status `pending` on
a pending intent succeeds and leaves the status `pending`, so an
immediately following verify call reporting `success` succeeds as well —
two successive verify calls on the same transaction id both succeed. -/
theorem payment_c2_cex :
    (verifyPayment mac0 5 db1 "t1" "pending" none).1.isOk = true ∧
    (verifyPayment mac0 6 (verifyPayment mac0 5 db1 "t1" "pending" none).2
        "t1" "success" none).1.isOk = true := by
  refine ⟨by decide, by decide⟩

/-- C3 (amended): a status read on a pending intent whose expiry has elapsed
mutates the stored status to `expired`, persists it, and returns the
updated view showing status `expired`; afterwards no verify call on the
intent succeeds: it fails with `AlreadyProcessed` — unless it supplies a
truthy mismatching signature, in which case with `SignatureMismatch`. -/
theorem payment_c3_thm
    (mac : String → String) (now1 now2 : ℤ) (db : DB) (tid s : String)
    (sig : Option String) (t : Transaction)
    (hf : findTxn db tid = some t) (htid : tid ≠ "")
    (hp : t.status = "pending") (hexp : now1 > t.expires) :
    (checkPaymentStatus now1 db tid).1 = .ok (mkView { t with status := "expired" }) ∧
    findTxn (checkPaymentStatus now1 db tid).2 tid = some { t with status := "expired" } ∧
    (verifyPayment mac now2 (checkPaymentStatus now1 db tid).2 tid s sig).1.isOk = false ∧
    (s ≠ "" →
      (verifyPayment mac now2 (checkPaymentStatus now1 db tid).2 tid s sig).1 =
        if sigRejects mac t.payload sig then .sigMismatch
        else .alreadyProcessed "expired") := by
  have hch := check_expiry now1 db tid t hf htid hp hexp
  have hf2 : findTxn (checkPaymentStatus now1 db tid).2 tid =
      some { t with status := "expired" } := by
    rw [hch]
    exact findTxn_saveTxnAt_self db tid _
  have hterm := verify_terminal mac now2 (checkPaymentStatus now1 db tid).2
    tid s sig _ hf2 (by simp)
  refine ⟨by rw [hch], hf2, ?_, ?_⟩
  · rw [hterm]
    by_cases h1 : tid = "" ∨ s = ""
    · simp [h1, VerifyResult.isOk]
    · by_cases h2 : sigRejects mac t.payload sig = true
      · simp [h1, h2, VerifyResult.isOk]
      · simp [h1, h2, VerifyResult.isOk]
  · intro hs
    rw [hterm]
    simp [htid, hs]

/-- Concrete instantiation of `payment_c3_thm`: a status read at a time past
expiry followed by a verify call reporting `success`. -/
theorem payment_c3_wit :
    findTxn db1 "t1" = some tx1 ∧ tx1.status = "pending" ∧ (2000 : ℤ) > tx1.expires ∧
    ((checkPaymentStatus 2000 db1 "t1").1 = .ok (mkView { tx1 with status := "expired" }) ∧
     findTxn (checkPaymentStatus 2000 db1 "t1").2 "t1" = some { tx1 with status := "expired" } ∧
     (verifyPayment mac0 2500 (checkPaymentStatus 2000 db1 "t1").2 "t1" "success" none).1.isOk = false ∧
     ("success" ≠ "" →
       (verifyPayment mac0 2500 (checkPaymentStatus 2000 db1 "t1").2 "t1" "success" none).1 =
         if sigRejects mac0 tx1.payload none then .sigMismatch
         else .alreadyProcessed "expired")) :=
  ⟨by decide, by decide, by decide,
   payment_c3_thm mac0 2000 2500 db1 "t1" "success" none tx1
     (by decide) (by decide) (by decide) (by decide)⟩

/-- C3, counterexample to the claim as stated: after the expiring status
read, a verify call that supplies a mismatching signature fails with
`SignatureMismatch`, not `AlreadyProcessed`. -/
theorem payment_c3_cex :
    (checkPaymentStatus 2000 db1 "t1").1 =
      .ok { tid := "t1", status := "expired", amount := 100, payType := "phonepe",
            upi := "m@sbi", createdAt := 0, completedAt := none } ∧
    (verifyPayment mac0 2500 (checkPaymentStatus 2000 db1 "t1").2
        "t1" "success" (some "bogus")).1 = .sigMismatch ∧
    (verifyPayment mac0 2500 (checkPaymentStatus 2000 db1 "t1").2
        "t1" "success" (some "bogus")).1 ≠ .alreadyProcessed "expired" := by
  refine ⟨by decide, by decide, by decide⟩

/-- C4: for every intent stored by a successful creation, recomputing the
MAC over the stored (unmodified) payload equals the stored signature, so
a verify call that supplies exactly the stored signature never fails with
`SignatureMismatch`. -/
theorem payment_c4_thm (mac : String → String) (upi : String)
    (amount : Option JsVal) (payType : Option String)
    (orderId userId : Option String) (tid note amountStr payloadB64 : String)
    (now createdAt : ℤ) (amountVal : ℚ) (db : DB)
    (resp : CreateResponse) (db1 : DB)
    (hc : createPayment mac upi amount payType orderId userId tid note amountStr
        payloadB64 now createdAt amountVal db = .ok (resp, db1))
    (t : Transaction) (hf : findTxn db1 tid = some t)
    (now2 : ℤ) (s : String) :
    mac t.payload = t.signature ∧
    (verifyPayment mac now2 db1 tid s (some t.signature)).1 ≠ .sigMismatch := by
  obtain ⟨pt, -, -, -, -, hdb⟩ := create_ok_inversion mac upi amount payType
    orderId userId tid note amountStr payloadB64 now createdAt amountVal db
    resp db1 hc
  subst hdb
  rw [findTxn_saveTxnAt_self] at hf
  injection hf with hf
  subst hf
  refine ⟨rfl, ?_⟩
  apply verify_not_sigMismatch mac now2 _ tid s _ _ (findTxn_saveTxnAt_self db tid _)
  simp [sigRejects]

/-- Concrete instantiation of `payment_c4_thm`: a PhonePe creation run
followed by a verify call supplying the stored signature. -/
theorem payment_c4_wit :
    createPayment mac0 "m@sbi" (some (.num 100)) (some "phonepe") none none
        "t9" "s1" "100" "PL" 0 0 100 dbEmpty = .ok (resp9, db9) ∧
    findTxn db9 "t9" = some txn9 ∧
    (mac0 txn9.payload = txn9.signature ∧
     (verifyPayment mac0 7 db9 "t9" "success" (some txn9.signature)).1 ≠ .sigMismatch) :=
  ⟨rfl, by decide,
   payment_c4_thm mac0 "m@sbi" (some (.num 100)) (some "phonepe") none none
     "t9" "s1" "100" "PL" 0 0 100 dbEmpty resp9 db9 rfl txn9 (by decide) 7 "success"⟩

/-- C5: a successful verify on a pending intent whose `orderId` references
an existing order reconciles that order: reported status `success` sets
`paymentStatus` to `paid` and `status` to `confirmed`; `failed` sets
`paymentStatus` to `failed` and `status` to `cancelled`; any other
reported value updates the intent's status but mutates no order. -/
theorem payment_c5_thm
    (mac : String → String) (now : ℤ) (db : DB) (tid s : String)
    (sig : Option String) (t : Transaction) (oid : String) (o : Order)
    (hf : findTxn db tid = some t) (htid : tid ≠ "") (hs : s ≠ "")
    (hp : t.status = "pending") (hsig : sigRejects mac t.payload sig = false)
    (hoid : t.orderId = some oid) (ho : findOrder db oid = some o) :
    (verifyPayment mac now db tid s sig).1.isOk = true ∧
    (s = "success" →
      findOrder (verifyPayment mac now db tid s sig).2 oid =
        some { o with paymentStatus := "paid", status := "confirmed" }) ∧
    (s = "failed" →
      findOrder (verifyPayment mac now db tid s sig).2 oid =
        some { o with paymentStatus := "failed", status := "cancelled" }) ∧
    (s ≠ "success" → s ≠ "failed" →
      (verifyPayment mac now db tid s sig).2.orders = db.orders ∧
      findTxn (verifyPayment mac now db tid s sig).2 tid =
        some { t with status := s, completedAt := some now }) := by
  obtain ⟨hres, htx, hord⟩ := verify_pending mac now db tid s sig t hf htid hs hp hsig
  simp only [hoid] at hord
  have ho2 : db.orders oid = some o := ho
  simp only [ho2] at hord
  have hfind : findOrder (verifyPayment mac now db tid s sig).2 oid =
      some (reconcileOrder s o) := by
    show (verifyPayment mac now db tid s sig).2.orders oid = _
    rw [hord]
    simp [saveOrderAt]
  refine ⟨by rw [hres]; rfl, ?_, ?_, ?_⟩
  · intro hsucc
    rw [hfind]
    simp [reconcileOrder, hsucc]
  · intro hfail
    subst hfail
    rw [hfind]
    simp [reconcileOrder]
  · intro hns hnf
    have hrec : reconcileOrder s o = o := by simp [reconcileOrder, hns, hnf]
    constructor
    · rw [hord, hrec]
      funext k
      by_cases hk : k = oid
      · subst hk; simp [saveOrderAt, ho2]
      · simp [saveOrderAt, hk]
    · show (verifyPayment mac now db tid s sig).2.txns tid = _
      rw [htx]
      exact findTxn_saveTxnAt_self db tid _

/-- Concrete instantiation of `payment_c5_thm`: verify reporting `success`
on a pending intent linked to an existing order. -/
theorem payment_c5_wit :
    findTxn db1 "t1" = some tx1 ∧ tx1.status = "pending" ∧
    sigRejects mac0 tx1.payload none = false ∧
    tx1.orderId = some "o1" ∧ findOrder db1 "o1" = some ord1 ∧
    ((verifyPayment mac0 5 db1 "t1" "success" none).1.isOk = true ∧
     ("success" = "success" →
       findOrder (verifyPayment mac0 5 db1 "t1" "success" none).2 "o1" =
         some { ord1 with paymentStatus := "paid", status := "confirmed" }) ∧
     ("success" = "failed" →
       findOrder (verifyPayment mac0 5 db1 "t1" "success" none).2 "o1" =
         some { ord1 with paymentStatus := "failed", status := "cancelled" }) ∧
     ("success" ≠ "success" → "success" ≠ "failed" →
       (verifyPayment mac0 5 db1 "t1" "success" none).2.orders = db1.orders ∧
       findTxn (verifyPayment mac0 5 db1 "t1" "success" none).2 "t1" =
         some { tx1 with status := "success", completedAt := some 5 })) :=
  ⟨by decide, by decide, by decide, by decide, by decide,
   payment_c5_thm mac0 5 db1 "t1" "success" none tx1 "o1" ord1
     (by decide) (by decide) (by decide) (by decide) (by decide)
     (by decide) (by decide)⟩

/-- C6: a verify call that fails with `NotFound`, `SignatureMismatch` or
`AlreadyProcessed` leaves the store — every transaction, every field of
it, and every order — exactly as it was. -/
theorem payment_c6_thm
    (mac : String → String) (now : ℤ) (db : DB) (tid s : String)
    (sig : Option String) (x : String)
    (h : (verifyPayment mac now db tid s sig).1 = .notFound ∨
         (verifyPayment mac now db tid s sig).1 = .sigMismatch ∨
         (verifyPayment mac now db tid s sig).1 = .alreadyProcessed x) :
    (verifyPayment mac now db tid s sig).2 = db := by
  apply verify_fail_frame
  rcases h with h | h | h <;> rw [h] <;> rfl

/-- Concrete instantiation of `payment_c6_thm`: a verify call on an empty
store fails with `NotFound` and returns the store unchanged. -/
theorem payment_c6_wit :
    (verifyPayment mac0 0 dbEmpty "t1" "success" none).1 = .notFound ∧
    (verifyPayment mac0 0 dbEmpty "t1" "success" none).2 = dbEmpty :=
  ⟨by decide, payment_c6_thm mac0 0 dbEmpty "t1" "success" none "x" (Or.inl (by decide))⟩

/-- C7 (amended): creation fails with `Invalid payload` exactly when
`amount` or `payType` is missing or otherwise falsy (`0`, the empty
string, `null`); it fails with `Unsupported payment type` exactly when
both are truthy and the lower-cased, trimmed `payType` is neither
`phonepe` nor `paytm`; a request whose `amount` is truthy and whose
lower-cased, trimmed `payType` is `phonepe` or `paytm` fails with neither
error. -/
theorem payment_c7_thm (amount : Option JsVal) (payType : Option String) :
    (validateCreate amount payType = .error .invalidPayload ↔
      (jsTruthy amount = false ∨ strTruthy payType = false)) ∧
    (validateCreate amount payType = .error .unsupportedType ↔
      (jsTruthy amount = true ∧ strTruthy payType = true ∧
        jsTrim (jsToLower (payType.getD "")) ≠ "phonepe" ∧
        jsTrim (jsToLower (payType.getD "")) ≠ "paytm")) ∧
    (jsTruthy amount = true → strTruthy payType = true →
      (jsTrim (jsToLower (payType.getD "")) = "phonepe" ∨
        jsTrim (jsToLower (payType.getD "")) = "paytm") →
      validateCreate amount payType = .ok (jsTrim (jsToLower (payType.getD "")))) := by
  by_cases ha : jsTruthy amount = true <;>
    by_cases hb : strTruthy payType = true <;>
    by_cases hc : jsTrim (jsToLower (payType.getD "")) = "phonepe" ∨
      jsTrim (jsToLower (payType.getD "")) = "paytm" <;>
    simp [validateCreate, ha, hb, hc] <;>
    tauto

/-- Concrete instantiation of `payment_c7_thm`: amount `"50"` with payType
`PayTM` validates to provider `paytm`. -/
theorem payment_c7_wit :
    validateCreate (some (.str "50")) (some "PayTM") = .ok "paytm" :=
  (payment_c7_thm (some (.str "50")) (some "PayTM")).2.2 (by decide) (by decide)
    (Or.inr (by decide))

/-- C7, counterexample to the claim as stated: `amount: 0` with a supported
`payType` is present yet rejected as `Invalid payload` (the JS guard
tests truthiness, not presence); and payType `PHONEPE ` — not
case-insensitively equal to `phonepe` because of the trailing blank — is
accepted, because the code also trims it. -/
theorem payment_c7_cex :
    validateCreate (some (.num 0)) (some "phonepe") = .error .invalidPayload ∧
    (some (JsVal.num 0) ≠ none ∧ (some "phonepe" : Option String) ≠ none) ∧
    validateCreate (some (.num 100)) (some "PHONEPE ") = .ok "phonepe" ∧
    jsToLower "PHONEPE " ≠ "phonepe" ∧ jsToLower "PHONEPE " ≠ "paytm" := by
  refine ⟨by decide, ⟨by decide, by decide⟩, by decide, by decide, by decide⟩

/-- C8 (amended): the PhonePe deep link is exactly
`phonepe://native?data=<url-encoded base64 payload>&id=p2ppayment`; the
Paytm deep link is exactly the specified template with the query
parameters in exactly the specified order, except that every value is
form-url-encoded as `URLSearchParams` serializes it (so `@` in the
handle appears as `%40`); a successful creation returns exactly these
links. -/
theorem payment_c8_thm
    (payloadB64 handle amountStr note : String)
    (mac : String → String) (amount : Option JsVal) (payType : Option String)
    (orderId userId : Option String) (tid : String) (now createdAt : ℤ)
    (amountVal : ℚ) (db : DB) (resp : CreateResponse) (db1 : DB) :
    phonepeRedirect payloadB64 =
      "phonepe://native?data=" ++ encodeURIComponent payloadB64 ++ "&id=p2ppayment" ∧
    paytmRedirect handle amountStr note =
      "paytmmp://cash_wallet?pa=" ++ formEncode handle ++ "&am=" ++
        formEncode amountStr ++ "&tn=" ++ formEncode note ++ "&pn=" ++
        formEncode handle ++
        "&mc=&cu=INR&url=&mode=&purpose=&orgid=&sign=&featuretype=money_transfer" ∧
    (createPayment mac handle amount payType orderId userId tid note amountStr
        payloadB64 now createdAt amountVal db = .ok (resp, db1) →
      (validateCreate amount payType = .ok "phonepe" →
        resp.redirect_url = phonepeRedirect payloadB64) ∧
      (validateCreate amount payType = .ok "paytm" →
        resp.redirect_url = paytmRedirect handle amountStr note)) := by
  refine ⟨rfl, ?_, ?_⟩
  · simp [paytmRedirect, serializeParams,
      show formEncode "pa" = "pa" from rfl, show formEncode "am" = "am" from rfl,
      show formEncode "tn" = "tn" from rfl, show formEncode "pn" = "pn" from rfl,
      show formEncode "mc" = "mc" from rfl, show formEncode "cu" = "cu" from rfl,
      show formEncode "url" = "url" from rfl, show formEncode "mode" = "mode" from rfl,
      show formEncode "purpose" = "purpose" from rfl,
      show formEncode "orgid" = "orgid" from rfl,
      show formEncode "sign" = "sign" from rfl,
      show formEncode "featuretype" = "featuretype" from rfl,
      show formEncode "INR" = "INR" from rfl,
      show formEncode "money_transfer" = "money_transfer" from rfl,
      show formEncode "" = "" from rfl, ← String.append_assoc]
    rw [append_glue _ "&" "am=" "&am=" rfl,
        append_glue _ "&" "tn=" "&tn=" rfl,
        append_glue _ "&" "pn=" "&pn=" rfl,
        append_glue _ "&"
          "mc=&cu=INR&url=&mode=&purpose=&orgid=&sign=&featuretype=money_transfer"
          "&mc=&cu=INR&url=&mode=&purpose=&orgid=&sign=&featuretype=money_transfer" rfl]
  · intro hc
    obtain ⟨pt, hv, hurl, -, -, -⟩ := create_ok_inversion mac handle amount payType
      orderId userId tid note amountStr payloadB64 now createdAt amountVal db
      resp db1 hc
    constructor
    · intro hph
      rw [hv] at hph
      injection hph with hph
      rw [hurl, hph]
      simp
    · intro hpt
      rw [hv] at hpt
      injection hpt with hpt
      rw [hurl, hpt]
      simp

set_option maxRecDepth 8000 in
/-- Concrete instantiation of `payment_c8_thm`: a Paytm creation run whose
response carries the constructed Paytm deep link. -/
theorem payment_c8_wit :
    createPayment mac0 "m@sbi" (some (.num 50)) (some "paytm") none none
        "t8" "s2" "50" "PLB" 0 0 50 dbEmpty = .ok (resp8, db8) ∧
    validateCreate (some (.num 50)) (some "paytm") = .ok "paytm" ∧
    resp8.redirect_url = paytmRedirect "m@sbi" "50" "s2" :=
  ⟨rfl, by decide,
   ((payment_c8_thm "PLB" "m@sbi" "50" "s2" mac0 (some (.num 50)) (some "paytm")
       none none "t8" 0 0 50 dbEmpty resp8 db8).2.2 rfl).2 (by decide)⟩

set_option maxRecDepth 20000 in
/-- C8, counterexample to the claim as stated: with the merchant handle
`mstandwafuelcentre@sbi` the Paytm link differs from the spec's format
string with raw values substituted, because `URLSearchParams`
percent-encodes the `@` of the handle as `%40`. -/
theorem payment_c8_cex :
    paytmRedirect "mstandwafuelcentre@sbi" "100" "s123" ≠
      specPaytmLink "mstandwafuelcentre@sbi" "100" "s123" ∧
    paytmRedirect "mstandwafuelcentre@sbi" "100" "s123" =
      "paytmmp://cash_wallet?pa=mstandwafuelcentre%40sbi&am=100&tn=s123&pn=mstandwafuelcentre%40sbi&mc=&cu=INR&url=&mode=&purpose=&orgid=&sign=&featuretype=money_transfer" := by
  refine ⟨by decide, by decide⟩

/-- C10: a status read modifies at most the status field of the intent it
reads: either the stored intent is wholly unchanged or only its status
became `expired`; transactions under other ids and all orders are
untouched; and when the intent is not pending, or pending but not yet
past expiry, the store is returned unchanged — no write is issued. -/
theorem payment_c10_thm (now : ℤ) (db : DB) (tid : String) (t : Transaction)
    (hf : findTxn db tid = some t) :
    (findTxn (checkPaymentStatus now db tid).2 tid = some t ∨
      findTxn (checkPaymentStatus now db tid).2 tid = some { t with status := "expired" }) ∧
    (∀ k, k ≠ tid → (checkPaymentStatus now db tid).2.txns k = db.txns k) ∧
    (checkPaymentStatus now db tid).2.orders = db.orders ∧
    ((t.status ≠ "pending" ∨ now ≤ t.expires) → (checkPaymentStatus now db tid).2 = db) := by
  by_cases hcond : t.status = "pending" ∧ now > t.expires
  · by_cases htid : tid = ""
    · subst htid
      rw [check_empty_tid now db]
      exact ⟨Or.inl hf, fun k _ => rfl, rfl, fun _ => rfl⟩
    · rw [check_expiry now db tid t hf htid hcond.1 hcond.2]
      refine ⟨Or.inr (findTxn_saveTxnAt_self db tid _), fun k hk => ?_, rfl, fun hno => ?_⟩
      · simp [saveTxnAt, hk]
      · rcases hno with hno | hno
        · exact absurd hcond.1 hno
        · omega
  · rw [check_no_expiry now db tid t hf hcond]
    exact ⟨Or.inl hf, fun k _ => rfl, rfl, fun _ => rfl⟩

/-- Concrete instantiation of `payment_c10_thm`: a status read on a pending
intent before its expiry returns the store unchanged. -/
theorem payment_c10_wit :
    findTxn db1 "t1" = some tx1 ∧
    ((findTxn (checkPaymentStatus 500 db1 "t1").2 "t1" = some tx1 ∨
       findTxn (checkPaymentStatus 500 db1 "t1").2 "t1" =
         some { tx1 with status := "expired" }) ∧
     (∀ k, k ≠ "t1" → (checkPaymentStatus 500 db1 "t1").2.txns k = db1.txns k) ∧
     (checkPaymentStatus 500 db1 "t1").2.orders = db1.orders ∧
     ((tx1.status ≠ "pending" ∨ (500 : ℤ) ≤ tx1.expires) →
       (checkPaymentStatus 500 db1 "t1").2 = db1)) :=
  ⟨by decide, payment_c10_thm 500 db1 "t1" tx1 (by decide)⟩
